import Mathlib

/-!
Verification of the x402 facilitator WS/HTTP surface and the example
streaming seller, as implemented in `src/handlers.rs` and
`examples/x402-ws-example/src/bin/seller.rs`.

The embedding models JSON values (`serde_json::Value`) as the inductive
`Json`.  Rust strings are Lean `String`s; WebSocket frame payloads are
byte lists (`List Nat`), matching the fact that a Rust `String` is a
UTF-8 byte sequence.  Asynchronous collaborators that live outside the
translated sources (the facilitator verify/settle engine, serde
deserializers for the `x402-rs` types, UUID generation and clocks) are
passed in as explicit function parameters, so every handler is a pure
function of its inputs and those oracles, mirroring the spec's "verify
determinism" stance.
-/

/-- JSON values, the model of `serde_json::Value`.  Numbers are modelled
as integers: every number appearing in the translated code paths
(error codes, slice indices, timestamps) is integral. -/
inductive Json where
  | null
  | bool (b : Bool)
  | num (n : Int)
  | str (s : String)
  | arr (elems : List Json)
  | obj (fields : List (String × Json))

/-- Model of `Value::get(key)` on a JSON object: first binding of `key`, if any;
`None` on non-objects. -/
def Json.lookup (j : Json) (key : String) : Option Json :=
  match j with
  | .obj fields => fields.lookup key
  | _ => none

/-- Model of `Value::as_bool`. -/
def Json.asBool (j : Json) : Option Bool :=
  match j with
  | .bool b => some b
  | _ => none

/-- Model of `Value::as_str`. -/
def Json.asStr (j : Json) : Option String :=
  match j with
  | .str s => some s
  | _ => none

/-- Byte-wise comparison of character lists (code-point order), used for
the key-sort normalization of claim C1. -/
def charsLt : List Char → List Char → Bool
  | [], [] => false
  | [], _ :: _ => true
  | _ :: _, [] => false
  | a :: as, b :: bs =>
    if a.toNat < b.toNat then true
    else if b.toNat < a.toNat then false
    else charsLt as bs

/-- Code-point order on strings. -/
def strLt (a b : String) : Bool := charsLt a.data b.data

/-- Insertion step of the key sort. -/
def insertField (p : String × Json) : List (String × Json) → List (String × Json)
  | [] => [p]
  | q :: qs => if strLt p.1 q.1 then p :: q :: qs else q :: insertField p qs

/-- Insertion sort of object fields by key. -/
def sortFields (fs : List (String × Json)) : List (String × Json) :=
  fs.foldr insertField []

mutual
/-- Key-sort normalization of a JSON value: recursively sort all object
keys.  This is the normalization under which claim C1 compares WS and
HTTP response bodies. -/
def Json.sortKeys : Json → Json
  | .null => .null
  | .bool b => .bool b
  | .num n => .num n
  | .str s => .str s
  | .arr xs => .arr (Json.sortKeysList xs)
  | .obj fs => .obj (sortFields (Json.sortKeysFields fs))
termination_by structural j => j

def Json.sortKeysList : List Json → List Json
  | [] => []
  | x :: xs => Json.sortKeys x :: Json.sortKeysList xs
termination_by structural xs => xs

def Json.sortKeysFields : List (String × Json) → List (String × Json)
  | [] => []
  | (k, v) :: fs => (k, Json.sortKeys v) :: Json.sortKeysFields fs
termination_by structural fs => fs
end

/-! ## Facilitator-local error taxonomy and responses

`FacilitatorLocalError` is declared in `src/chain.rs` of this crate,
which is not among the provided sources; its constructors and the types
of their payer payloads are taken from the exhaustive `match`es in
`src/handlers.rs` (`map_error_to_verify_response` and
`impl IntoResponse for FacilitatorLocalError`): `SchemeMismatch`,
`NetworkMismatch` and `UnsupportedNetwork` carry an optional payer,
`ReceiverMismatch`, `InvalidSignature`, `InvalidTiming`,
`InsufficientValue` and `InsufficientFunds` carry a definite payer, and
the transport-fault variants carry only diagnostic detail.  Further
diagnostic fields hidden behind `..` in those matches are elided; they
are never read by the handlers. -/

/-- A payer address (`MixedAddress` in `src/types.rs`), modelled as its
string form. -/
abbrev MixedAddress := String

/-- Modelled from the spec: `invalidReason` enumeration of
`VerifyResponse` (§3), with the surface spellings of §7. -/
inductive FacilitatorErrorReason where
  | invalidScheme
  | invalidNetwork
  | insufficientFunds
  | unexpectedSettleError
deriving DecidableEq

/-- Serialization of `FacilitatorErrorReason`. -/
def FacilitatorErrorReason.toStr : FacilitatorErrorReason → String
  | .invalidScheme => "invalidScheme"
  | .invalidNetwork => "invalidNetwork"
  | .insufficientFunds => "insufficientFunds"
  | .unexpectedSettleError => "unexpectedSettleError"

/-- Modelled from the spec: `VerifyResponse` (§3),
`{isValid, payer?, invalidReason?}`; declared in `src/types.rs`, which
is not among the provided sources. -/
structure VerifyResponse where
  isValid : Bool
  payer : Option MixedAddress
  invalidReason : Option FacilitatorErrorReason

/-- Constructor `VerifyResponse::invalid(payer, reason)`, the one used by
`src/handlers.rs`. -/
def VerifyResponse.invalid (payer : Option MixedAddress)
    (reason : FacilitatorErrorReason) : VerifyResponse :=
  { isValid := false, payer := payer, invalidReason := some reason }

/-- An optional serialized field: present only when the value is. -/
def optField (key : String) : Option Json → List (String × Json)
  | none => []
  | some v => [(key, v)]

/-- JSON serialization of `VerifyResponse`; optional fields are omitted
when absent, per the `?` markers of spec §3. -/
def VerifyResponse.toJson (r : VerifyResponse) : Json :=
  .obj ([("isValid", Json.bool r.isValid)]
    ++ optField "payer" (r.payer.map (fun p => Json.str p))
    ++ optField "invalidReason" (r.invalidReason.map (fun x => Json.str x.toStr)))

/-- Type `FacilitatorLocalError` (from `src/chain.rs`, shapes read off the
matches in `src/handlers.rs`). -/
inductive FacilitatorLocalError where
  | schemeMismatch (payer : Option MixedAddress)
  | receiverMismatch (payer : MixedAddress)
  | invalidSignature (payer : MixedAddress)
  | invalidTiming (payer : MixedAddress)
  | insufficientValue (payer : MixedAddress)
  | networkMismatch (payer : Option MixedAddress)
  | unsupportedNetwork (payer : Option MixedAddress)
  | contractCall (detail : String)
  | invalidAddress (detail : String)
  | decodingError (detail : String)
  | clockError (detail : String)
  | insufficientFunds (payer : MixedAddress)

/-- Function `map_error_to_verify_response` from `src/handlers.rs`. -/
def map_error_to_verify_response : FacilitatorLocalError → VerifyResponse
  | .schemeMismatch payer => VerifyResponse.invalid payer .invalidScheme
  | .receiverMismatch payer
  | .invalidSignature payer
  | .invalidTiming payer
  | .insufficientValue payer => VerifyResponse.invalid (some payer) .invalidScheme
  | .networkMismatch payer
  | .unsupportedNetwork payer => VerifyResponse.invalid payer .invalidNetwork
  | .contractCall _
  | .invalidAddress _
  | .decodingError _
  | .clockError _ => VerifyResponse.invalid none .unexpectedSettleError
  | .insufficientFunds payer => VerifyResponse.invalid (some payer) .insufficientFunds

/-- Helper `invalid_schema` from `src/handlers.rs`. -/
def invalid_schema (payer : Option MixedAddress) : VerifyResponse :=
  VerifyResponse.invalid payer .invalidScheme

/-- An HTTP response: status code and JSON body. -/
structure HttpResponse where
  status : Nat
  body : Json

/-- Body of `ErrorResponse { error: "Invalid request" }`. -/
def errorResponseInvalidRequest : Json :=
  .obj [("error", Json.str "Invalid request")]

/-- Impl `IntoResponse for FacilitatorLocalError` from
`src/handlers.rs`: protocol-level invalidity is 200 with a typed
invalid `VerifyResponse`; transport faults are 400 `Invalid request`. -/
def FacilitatorLocalError.into_response : FacilitatorLocalError → HttpResponse
  | .schemeMismatch payer => ⟨200, (invalid_schema payer).toJson⟩
  | .receiverMismatch payer
  | .invalidSignature payer
  | .invalidTiming payer
  | .insufficientValue payer => ⟨200, (invalid_schema (some payer)).toJson⟩
  | .networkMismatch payer
  | .unsupportedNetwork payer =>
      ⟨200, (VerifyResponse.invalid payer .invalidNetwork).toJson⟩
  | .contractCall _
  | .invalidAddress _
  | .decodingError _
  | .clockError _ => ⟨400, errorResponseInvalidRequest⟩
  | .insufficientFunds payer =>
      ⟨200, (VerifyResponse.invalid (some payer) .insufficientFunds).toJson⟩

/-- The eight error kinds the claims call protocol-level invalidity
(exactly the kinds listed in claim C2). -/
def protocol_level_invalidity : FacilitatorLocalError → Bool
  | .schemeMismatch _ | .receiverMismatch _ | .invalidSignature _
  | .invalidTiming _ | .insufficientValue _ | .networkMismatch _
  | .unsupportedNetwork _ | .insufficientFunds _ => true
  | .contractCall _ | .invalidAddress _ | .decodingError _ | .clockError _ => false

/-! ## WebSocket surface (`src/handlers.rs`, `ws_serve` / `handle_ws_text`)

`handle_ws_text` first deserializes the frame text into `WsEnvelopeReq`
(`serde_json::from_str`) and, per method, the `params` value into a
`VerifyRequest` or `SettleRequest` (`serde_json::from_value`), then
calls the facilitator.  The serde parsers and the facilitator engine
live outside the provided sources, so they enter the embedding as
function parameters (`parseEnv` and the fields of `FacilitatorIface`);
the branching of `handle_ws_text` itself is translated verbatim. -/

/-- The WS request envelope (`WsEnvelopeReq` in `src/handlers.rs`):
`id` is an arbitrary JSON value, `params` defaults to JSON null when
absent. -/
structure WsEnvelopeReq where
  id : Json
  method : String
  params : Json

/-- Serialization of `WsEnvelopeOk { id, result }` (field order as
declared). -/
def ws_envelope_ok (id : Json) (result : Json) : Json :=
  .obj [("id", id), ("result", result)]

/-- Serialization of `WsEnvelopeErr { id, error: WsErrorBody }`; the
`data` field is skipped when `None` (`skip_serializing_if`). -/
def ws_envelope_err (id : Json) (code : Int) (message : String)
    (data : Option Json) : Json :=
  .obj [("id", id),
        ("error", .obj ([("code", Json.num code), ("message", Json.str message)]
          ++ optField "data" data))]

/-- Modelled from the spec: `VerifyRequest{x402Version, paymentPayload,
paymentRequirements}` (§4.6); declared in `src/types.rs`, which is not
among the provided sources.  The nested payload and requirements stay
as JSON values: no translated code inspects them. -/
structure VerifyRequestM where
  x402Version : Nat
  paymentPayload : Json
  paymentRequirements : Json

/-- Modelled from the spec: `SettleRequest` has the same shape as
`VerifyRequest` (§4.6). -/
structure SettleRequestM where
  x402Version : Nat
  paymentPayload : Json
  paymentRequirements : Json

/-- The facilitator engine and the serde parsers for its request types,
as seen from `src/handlers.rs`: `kinds`, `verify` and `settle` of
`FacilitatorLocal` (holding chain state fixed they are functions of the
request, per spec §8 "verify determinism"), and the
`serde_json::from_value` parsers for the two request types.  A settle
success body is kept as JSON: the handlers never inspect it. -/
structure FacilitatorIface where
  kinds : Json
  parseVerify : Json → Except String VerifyRequestM
  verify : VerifyRequestM → Except FacilitatorLocalError VerifyResponse
  parseSettle : Json → Except String SettleRequestM
  settle : SettleRequestM → Except FacilitatorLocalError Json

/-- The method dispatch of `handle_ws_text` after the envelope has been
deserialized (the body of the `match method` in `src/handlers.rs`). -/
def ws_dispatch (fac : FacilitatorIface) (req : WsEnvelopeReq) : Json :=
  if req.method = "x402.supported" then
    ws_envelope_ok req.id (.obj [("kinds", fac.kinds)])
  else if req.method = "x402.verify" then
    match fac.parseVerify req.params with
    | .ok body =>
      match fac.verify body with
      | .ok r => ws_envelope_ok req.id r.toJson
      | .error e => ws_envelope_ok req.id (map_error_to_verify_response e).toJson
    | .error e => ws_envelope_err req.id (-32602) ("Invalid params: " ++ e) none
  else if req.method = "x402.settle" then
    match fac.parseSettle req.params with
    | .ok body =>
      match fac.settle body with
      | .ok r => ws_envelope_ok req.id r
      | .error e =>
        ws_envelope_err req.id 1001 "Settlement failed"
          (some (map_error_to_verify_response e).toJson)
    | .error e => ws_envelope_err req.id (-32602) ("Invalid params: " ++ e) none
  else
    ws_envelope_err req.id (-32601) "Method not found" none

/-- Function `handle_ws_text` from `src/handlers.rs`: deserialize the envelope
(`parseEnv` stands for `serde_json::from_str::<WsEnvelopeReq>`); on
failure return no response; otherwise dispatch.  Frame text is a UTF-8
byte list, as a Rust `&str` is. -/
def handle_ws_text (parseEnv : List Nat → Except String WsEnvelopeReq)
    (fac : FacilitatorIface) (text : List Nat) : Option Json :=
  match parseEnv text with
  | .error _ => none
  | .ok req => some (ws_dispatch fac req)

/-! ### UTF-8 (`String::from_utf8_lossy` on binary frames)

`ws_serve` decodes binary frames with `String::from_utf8_lossy`, which
returns the input bytes unchanged (`Cow::Borrowed`) when they are valid
UTF-8 and otherwise substitutes U+FFFD for ill-formed subsequences.
Validity below follows the UTF-8 acceptance ranges enforced by the Rust
standard library (no overlongs, no surrogates, max U+10FFFF). -/

/-- A UTF-8 continuation byte: `0x80..=0xBF`. -/
def utf8Cont (b : Nat) : Bool := 0x80 ≤ b && b ≤ 0xBF

/-- UTF-8 validity of a byte sequence. -/
def utf8Valid : List Nat → Bool
  | [] => true
  | b :: rest =>
    if b ≤ 0x7F then utf8Valid rest
    else if 0xC2 ≤ b && b ≤ 0xDF then
      match rest with
      | c1 :: rest2 => utf8Cont c1 && utf8Valid rest2
      | [] => false
    else if b = 0xE0 then
      match rest with
      | c1 :: c2 :: rest2 => (0xA0 ≤ c1 && c1 ≤ 0xBF) && utf8Cont c2 && utf8Valid rest2
      | _ => false
    else if (0xE1 ≤ b && b ≤ 0xEC) || (0xEE ≤ b && b ≤ 0xEF) then
      match rest with
      | c1 :: c2 :: rest2 => utf8Cont c1 && utf8Cont c2 && utf8Valid rest2
      | _ => false
    else if b = 0xED then
      match rest with
      | c1 :: c2 :: rest2 => (0x80 ≤ c1 && c1 ≤ 0x9F) && utf8Cont c2 && utf8Valid rest2
      | _ => false
    else if b = 0xF0 then
      match rest with
      | c1 :: c2 :: c3 :: rest2 =>
        (0x90 ≤ c1 && c1 ≤ 0xBF) && utf8Cont c2 && utf8Cont c3 && utf8Valid rest2
      | _ => false
    else if 0xF1 ≤ b && b ≤ 0xF3 then
      match rest with
      | c1 :: c2 :: c3 :: rest2 =>
        utf8Cont c1 && utf8Cont c2 && utf8Cont c3 && utf8Valid rest2
      | _ => false
    else if b = 0xF4 then
      match rest with
      | c1 :: c2 :: c3 :: rest2 =>
        (0x80 ≤ c1 && c1 ≤ 0x8F) && utf8Cont c2 && utf8Cont c3 && utf8Valid rest2
      | _ => false
    else false

/-- Replacement of ill-formed input, only reached on invalid byte
sequences: ASCII bytes are kept and other bytes become the U+FFFD
encoding `EF BF BD`.  (The library replaces whole maximal ill-formed
subsequences; the handlers only ever rely on the valid-input path,
where `from_utf8_lossy` is the identity.) -/
def utf8Replace : List Nat → List Nat
  | [] => []
  | b :: rest =>
    if b ≤ 0x7F then b :: utf8Replace rest
    else 0xEF :: 0xBF :: 0xBD :: utf8Replace rest

/-- Model of `String::from_utf8_lossy`: the identity on valid UTF-8
(`Cow::Borrowed`), replacement otherwise. -/
def from_utf8_lossy (bytes : List Nat) : List Nat :=
  if utf8Valid bytes then bytes else utf8Replace bytes

/-- Incoming `axum::extract::ws::Message` variants handled by
`ws_serve`. -/
inductive WsMessage where
  | text (t : List Nat)
  | binary (b : List Nat)
  | ping (p : List Nat)
  | close
  | other

/-- Outgoing frames of `ws_serve`: response texts (kept as the JSON
value they serialize) and pongs. -/
inductive WsOut where
  | text (j : Json)
  | pong (p : List Nat)

/-- The `ws_serve` receive loop from `src/handlers.rs` over a finite
message sequence: text frames are handled directly, binary frames are
decoded with `from_utf8_lossy` and handled identically, pings are
answered with pongs, `Close` ends the loop, anything else is ignored.
(Socket sends are modelled as succeeding; a failed send only ends the
loop early.) -/
def ws_serve (parseEnv : List Nat → Except String WsEnvelopeReq)
    (fac : FacilitatorIface) : List WsMessage → List WsOut
  | [] => []
  | m :: rest =>
    match m with
    | .text t =>
      (match handle_ws_text parseEnv fac t with
       | some j => [WsOut.text j]
       | none => []) ++ ws_serve parseEnv fac rest
    | .binary b =>
      (match handle_ws_text parseEnv fac (from_utf8_lossy b) with
       | some j => [WsOut.text j]
       | none => []) ++ ws_serve parseEnv fac rest
    | .ping p => WsOut.pong p :: ws_serve parseEnv fac rest
    | .close => []
    | .other => ws_serve parseEnv fac rest

/-- Handler `post_verify` from `src/handlers.rs`, after the body has been
deserialized by axum's `Json` extractor: 200 with the `VerifyResponse`
on success, `error.into_response()` on failure. -/
def post_verify (fac : FacilitatorIface) (body : VerifyRequestM) : HttpResponse :=
  match fac.verify body with
  | .ok r => ⟨200, r.toJson⟩
  | .error e => e.into_response

/-- Handler `post_settle` from `src/handlers.rs`. -/
def post_settle (fac : FacilitatorIface) (body : SettleRequestM) : HttpResponse :=
  match fac.settle body with
  | .ok r => ⟨200, r⟩
  | .error e => e.into_response

/-- Transport faults map to the payerless `UnexpectedSettleError`
diagnostic. -/
theorem map_error_transport (e : FacilitatorLocalError)
    (h : protocol_level_invalidity e = false) :
    map_error_to_verify_response e =
      VerifyResponse.invalid none .unexpectedSettleError := by
  cases e <;> simp [protocol_level_invalidity] at h <;> rfl

/-- Every `ws_dispatch` response envelope carries the request's `id` in
its `id` field. -/
theorem ws_dispatch_lookup_id (fac : FacilitatorIface) (req : WsEnvelopeReq) :
    Json.lookup (ws_dispatch fac req) "id" = some req.id := by
  unfold ws_dispatch
  repeat' split
  all_goals simp [ws_envelope_ok, ws_envelope_err, Json.lookup, List.lookup]

/-- C2: For every `FacilitatorLocalError` returned by verify or settle
over HTTP, the response status is 200 with a typed invalid
`VerifyResponse` body exactly when the error is a protocol-level
invalidity (SchemeMismatch, ReceiverMismatch, InvalidSignature,
InvalidTiming, InsufficientValue, NetworkMismatch, UnsupportedNetwork,
InsufficientFunds), and the response status is 400 exactly when the
error is ContractCall, InvalidAddress, DecodingError, or ClockError. -/
theorem http_error_status_mapping (e : FacilitatorLocalError) :
    ((e.into_response.status = 200 ∧
        ∃ p r, e.into_response.body = (VerifyResponse.invalid p r).toJson)
      ↔ protocol_level_invalidity e = true) ∧
    (e.into_response.status = 400 ↔ protocol_level_invalidity e = false) := by
  cases e <;>
    simp [FacilitatorLocalError.into_response, protocol_level_invalidity,
      invalid_schema] <;>
    exact ⟨_, _, rfl⟩

/-- Unfolding of `ws_dispatch` at method `x402.verify`. -/
theorem ws_dispatch_verify_eq (fac : FacilitatorIface) (idv params : Json) :
    ws_dispatch fac ⟨idv, "x402.verify", params⟩ =
      match fac.parseVerify params with
      | .ok body =>
        (match fac.verify body with
         | .ok r => ws_envelope_ok idv r.toJson
         | .error e => ws_envelope_ok idv (map_error_to_verify_response e).toJson)
      | .error e => ws_envelope_err idv (-32602) ("Invalid params: " ++ e) none := rfl

/-- Unfolding of `ws_dispatch` at method `x402.settle`. -/
theorem ws_dispatch_settle_eq (fac : FacilitatorIface) (idv params : Json) :
    ws_dispatch fac ⟨idv, "x402.settle", params⟩ =
      match fac.parseSettle params with
      | .ok body =>
        (match fac.settle body with
         | .ok r => ws_envelope_ok idv r
         | .error e =>
           ws_envelope_err idv 1001 "Settlement failed"
             (some (map_error_to_verify_response e).toJson))
      | .error e => ws_envelope_err idv (-32602) ("Invalid params: " ++ e) none := rfl

/-- Bodies of the typed invalid responses agree between the WS mapping
and the HTTP `IntoResponse` for every protocol-level invalidity. -/
theorem map_error_agrees_with_http (e : FacilitatorLocalError)
    (h : protocol_level_invalidity e = true) :
    (map_error_to_verify_response e).toJson = e.into_response.body ∧
    e.into_response.status = 200 := by
  cases e <;> simp [protocol_level_invalidity] at h <;>
    exact ⟨rfl, rfl⟩

/-- C1 (amended): For every VerifyRequest and every fixed facilitator
error outcome of a protocol-level invalidity kind (SchemeMismatch,
ReceiverMismatch, InvalidSignature, InvalidTiming, InsufficientValue,
NetworkMismatch, UnsupportedNetwork, InsufficientFunds), the WS method
`x402.verify` and the HTTP endpoint `POST /verify` produce the same
VerifyResponse JSON (after key-sort normalization): the body serialized
inside the WS success envelope's `result` equals the 200 body returned
by the HTTP handler.  (For the transport-fault kinds the two surfaces
disagree: see the counterexample.) -/
theorem ws_http_verify_parity (fac : FacilitatorIface) (idv params : Json)
    (body : VerifyRequestM) (e : FacilitatorLocalError)
    (hp : fac.parseVerify params = .ok body)
    (he : fac.verify body = .error e)
    (hproto : protocol_level_invalidity e = true) :
    ws_dispatch fac ⟨idv, "x402.verify", params⟩ =
      ws_envelope_ok idv (map_error_to_verify_response e).toJson ∧
    (post_verify fac body).status = 200 ∧
    Json.sortKeys (map_error_to_verify_response e).toJson =
      Json.sortKeys (post_verify fac body).body := by
  have hpv : post_verify fac body = e.into_response := by
    unfold post_verify; rw [he]
  have hagree := map_error_agrees_with_http e hproto
  refine ⟨?_, ?_, ?_⟩
  · rw [ws_dispatch_verify_eq, hp]
    dsimp only
    rw [he]
  · rw [hpv]; exact hagree.2
  · rw [hpv]; exact congrArg Json.sortKeys hagree.1

/-- Facilitator whose verify fails with a `ContractCall` transport
fault, the input of the C1 counterexample. -/
def facC1 : FacilitatorIface where
  kinds := Json.null
  parseVerify := fun p => .ok ⟨1, p, Json.null⟩
  verify := fun _ => .error (.contractCall "balance rpc failed")
  parseSettle := fun _ => .error "unused"
  settle := fun _ => .error (.contractCall "unused")

/-- C1 counterexample: for the facilitator error outcome
`ContractCall`, the WS `x402.verify` response is a success envelope
whose `result` is the `UnexpectedSettleError` diagnostic, while the
HTTP handler returns the 400 `Invalid request` body; the two bodies
differ even after key-sort normalization, refuting the claim for this
fixed error outcome. -/
theorem ws_http_verify_parity_cx :
    ws_dispatch facC1 ⟨Json.num 1, "x402.verify", Json.null⟩ =
      ws_envelope_ok (Json.num 1)
        (map_error_to_verify_response (.contractCall "balance rpc failed")).toJson ∧
    (post_verify facC1 ⟨1, Json.null, Json.null⟩).status = 400 ∧
    Json.sortKeys (map_error_to_verify_response (.contractCall "balance rpc failed")).toJson ≠
      Json.sortKeys (post_verify facC1 ⟨1, Json.null, Json.null⟩).body := by
  refine ⟨rfl, rfl, ?_⟩
  intro h
  have h2 : Json.obj [("invalidReason", Json.str "unexpectedSettleError"),
                      ("isValid", Json.bool false)] =
      Json.obj [("error", Json.str "Invalid request")] := h
  simp at h2

/-- Facilitator whose verify fails with a protocol-level
`SchemeMismatch`, input of the C1 witness. -/
def facC1w : FacilitatorIface where
  kinds := Json.null
  parseVerify := fun p => .ok ⟨1, p, Json.null⟩
  verify := fun _ => .error (.schemeMismatch none)
  parseSettle := fun _ => .error "unused"
  settle := fun _ => .error (.contractCall "unused")

/-- C1 witness. -/
theorem ws_http_verify_parity_witness :
    ws_dispatch facC1w ⟨Json.num 1, "x402.verify", Json.null⟩ =
      ws_envelope_ok (Json.num 1)
        (map_error_to_verify_response (.schemeMismatch none)).toJson ∧
    (post_verify facC1w ⟨1, Json.null, Json.null⟩).status = 200 := by
  have h := ws_http_verify_parity facC1w (Json.num 1) Json.null
    ⟨1, Json.null, Json.null⟩ (.schemeMismatch none) rfl rfl rfl
  exact ⟨h.1, h.2.1⟩

/-- C3: For every `x402.settle` request with well-formed params whose
settlement fails with a FacilitatorLocalError, the WS response is an
error envelope with `code` 1001 and a `data` field containing the
VerifyResponse-shaped diagnostic produced by mapping that error; on
settlement success the WS response is a success envelope whose
`result` is the SettleResponse. -/
theorem ws_settle_envelopes (fac : FacilitatorIface) (idv params : Json)
    (body : SettleRequestM) (hp : fac.parseSettle params = .ok body) :
    (∀ e, fac.settle body = .error e →
      ws_dispatch fac ⟨idv, "x402.settle", params⟩ =
        ws_envelope_err idv 1001 "Settlement failed"
          (some (map_error_to_verify_response e).toJson)) ∧
    (∀ r, fac.settle body = .ok r →
      ws_dispatch fac ⟨idv, "x402.settle", params⟩ = ws_envelope_ok idv r) := by
  constructor
  · intro e he
    rw [ws_dispatch_settle_eq, hp]
    dsimp only
    rw [he]
  · intro r hr
    rw [ws_dispatch_settle_eq, hp]
    dsimp only
    rw [hr]

/-- Facilitator with a failing settlement, input of the C3 witness. -/
def facC3err : FacilitatorIface where
  kinds := Json.null
  parseVerify := fun _ => .error "unused"
  verify := fun _ => .error (.contractCall "unused")
  parseSettle := fun p => .ok ⟨1, p, Json.null⟩
  settle := fun _ => .error (.insufficientFunds "0xabc")

/-- Facilitator with a succeeding settlement, input of the C3
witness. -/
def facC3ok : FacilitatorIface where
  kinds := Json.null
  parseVerify := fun _ => .error "unused"
  verify := fun _ => .error (.contractCall "unused")
  parseSettle := fun p => .ok ⟨1, p, Json.null⟩
  settle := fun _ => .ok (Json.str "settled")

/-- C3 witness. -/
theorem ws_settle_envelopes_witness :
    ws_dispatch facC3err ⟨Json.num 2, "x402.settle", Json.null⟩ =
      ws_envelope_err (Json.num 2) 1001 "Settlement failed"
        (some (map_error_to_verify_response (.insufficientFunds "0xabc")).toJson) ∧
    ws_dispatch facC3ok ⟨Json.num 3, "x402.settle", Json.null⟩ =
      ws_envelope_ok (Json.num 3) (Json.str "settled") := by
  constructor
  · exact (ws_settle_envelopes facC3err (Json.num 2) Json.null
      ⟨1, Json.null, Json.null⟩ rfl).1 (.insufficientFunds "0xabc") rfl
  · exact (ws_settle_envelopes facC3ok (Json.num 3) Json.null
      ⟨1, Json.null, Json.null⟩ rfl).2 (Json.str "settled") rfl

/-- Facilitator whose verify and settle both fail with `ContractCall`,
input of the C4 counterexample. -/
def facC4 : FacilitatorIface where
  kinds := Json.null
  parseVerify := fun p => .ok ⟨1, p, Json.null⟩
  verify := fun _ => .error (.contractCall "rpc timeout")
  parseSettle := fun p => .ok ⟨1, p, Json.null⟩
  settle := fun _ => .error (.contractCall "rpc timeout")

/-- C4 counterexample: a `x402.verify` request failing with
`ContractCall` is answered with a success envelope (its JSON has a
`result` field and no `error` field), not with a code-1001 error
envelope, refuting the claim for the verify method. -/
theorem ws_transport_code1001_cx :
    Json.lookup (ws_dispatch facC4 ⟨Json.num 7, "x402.verify", Json.null⟩) "error"
      = none ∧
    Json.lookup (ws_dispatch facC4 ⟨Json.num 7, "x402.verify", Json.null⟩) "result"
      = some (VerifyResponse.invalid none .unexpectedSettleError).toJson := by
  exact ⟨rfl, rfl⟩

/-- C4 (amended): a WS `x402.settle` request that fails with an error
of kind ContractCall, DecodingError, ClockError, or InvalidAddress is
answered with an error envelope with `code` 1001; a WS `x402.verify`
request failing with such an error is answered with a success envelope
whose `result` is the payerless `UnexpectedSettleError`
VerifyResponse. -/
theorem ws_transport_error_surfacing (fac : FacilitatorIface)
    (idv params : Json) (e : FacilitatorLocalError)
    (htr : protocol_level_invalidity e = false) :
    (∀ body, fac.parseSettle params = .ok body → fac.settle body = .error e →
      ws_dispatch fac ⟨idv, "x402.settle", params⟩ =
        ws_envelope_err idv 1001 "Settlement failed"
          (some (VerifyResponse.invalid none .unexpectedSettleError).toJson)) ∧
    (∀ body, fac.parseVerify params = .ok body → fac.verify body = .error e →
      ws_dispatch fac ⟨idv, "x402.verify", params⟩ =
        ws_envelope_ok idv
          (VerifyResponse.invalid none .unexpectedSettleError).toJson) := by
  constructor
  · intro body hp he
    rw [ws_dispatch_settle_eq, hp]
    dsimp only
    rw [he]
    dsimp only
    rw [map_error_transport e htr]
  · intro body hp he
    rw [ws_dispatch_verify_eq, hp]
    dsimp only
    rw [he]
    dsimp only
    rw [map_error_transport e htr]

/-- C4 witness. -/
theorem ws_transport_error_surfacing_witness :
    ws_dispatch facC4 ⟨Json.num 8, "x402.settle", Json.null⟩ =
      ws_envelope_err (Json.num 8) 1001 "Settlement failed"
        (some (VerifyResponse.invalid none .unexpectedSettleError).toJson) ∧
    ws_dispatch facC4 ⟨Json.num 9, "x402.verify", Json.null⟩ =
      ws_envelope_ok (Json.num 9)
        (VerifyResponse.invalid none .unexpectedSettleError).toJson := by
  constructor
  · exact (ws_transport_error_surfacing facC4 (Json.num 8) Json.null
      (.contractCall "rpc timeout") rfl).1 ⟨1, Json.null, Json.null⟩ rfl rfl
  · exact (ws_transport_error_surfacing facC4 (Json.num 9) Json.null
      (.contractCall "rpc timeout") rfl).2 ⟨1, Json.null, Json.null⟩ rfl rfl

/-- C6: For every verifier error that can only arise after signature
recovery has succeeded (InsufficientFunds from the balance check and
InvalidSignature from nonce reuse), the surfaced VerifyResponse — over
both HTTP and WS — has its `payer` field populated with the recovered
address (it is Some, never null). -/
theorem payer_populated_after_recovery (p : MixedAddress) :
    (map_error_to_verify_response (.insufficientFunds p)).payer = some p ∧
    (map_error_to_verify_response (.invalidSignature p)).payer = some p ∧
    (FacilitatorLocalError.insufficientFunds p).into_response =
      ⟨200, (VerifyResponse.invalid (some p) .insufficientFunds).toJson⟩ ∧
    (FacilitatorLocalError.invalidSignature p).into_response =
      ⟨200, (VerifyResponse.invalid (some p) .invalidScheme).toJson⟩ := by
  exact ⟨rfl, rfl, rfl, rfl⟩

/-- On valid UTF-8 input, `from_utf8_lossy` returns its input
(`Cow::Borrowed`). -/
theorem from_utf8_lossy_valid (b : List Nat) (hv : utf8Valid b = true) :
    from_utf8_lossy b = b := by
  unfold from_utf8_lossy
  rw [if_pos hv]

/-- C7: For every WS binary frame whose payload is valid UTF-8, the
facilitator produces exactly the same response (or absence of response)
as it would for a text frame carrying the same characters; the binary
path is observationally equivalent to the text path. -/
theorem binary_text_equivalence
    (parseEnv : List Nat → Except String WsEnvelopeReq)
    (fac : FacilitatorIface) (b : List Nat) (rest : List WsMessage)
    (hv : utf8Valid b = true) :
    handle_ws_text parseEnv fac (from_utf8_lossy b) =
      handle_ws_text parseEnv fac b ∧
    ws_serve parseEnv fac (.binary b :: rest) =
      ws_serve parseEnv fac (.text b :: rest) := by
  have hb := from_utf8_lossy_valid b hv
  constructor
  · rw [hb]
  · show (match handle_ws_text parseEnv fac (from_utf8_lossy b) with
          | some j => [WsOut.text j]
          | none => []) ++ ws_serve parseEnv fac rest =
        (match handle_ws_text parseEnv fac b with
          | some j => [WsOut.text j]
          | none => []) ++ ws_serve parseEnv fac rest
    rw [hb]

/-- Facilitator for the C7 witness. -/
def facC7 : FacilitatorIface where
  kinds := Json.arr []
  parseVerify := fun _ => .error "unused"
  verify := fun _ => .error (.contractCall "unused")
  parseSettle := fun _ => .error "unused"
  settle := fun _ => .error (.contractCall "unused")

/-- Envelope parser for the C7 witness: accepts everything as an
`x402.supported` request. -/
def parseEnvC7 : List Nat → Except String WsEnvelopeReq :=
  fun _ => .ok ⟨Json.num 4, "x402.supported", Json.null⟩

/-- C7 witness: the bytes of the ASCII text `hi` are valid UTF-8 and
the binary and text paths agree on them. -/
theorem binary_text_equivalence_witness :
    utf8Valid [104, 105] = true ∧
    ws_serve parseEnvC7 facC7 [.binary [104, 105]] =
      ws_serve parseEnvC7 facC7 [.text [104, 105]] := by
  exact ⟨rfl, (binary_text_equivalence parseEnvC7 facC7 [104, 105] [] rfl).2⟩

/-- C8: For every WS frame that parses as a request envelope
`{id, method, params}`, whenever the facilitator sends a response
envelope (success or error, including method-not-found -32601 and
invalid-params -32602), the `id` field of the response equals the `id`
of the request, unchanged, for every JSON value of `id`. -/
theorem ws_response_echoes_id (fac : FacilitatorIface) (req : WsEnvelopeReq) :
    Json.lookup (ws_dispatch fac req) "id" = some req.id ∧
    (∀ parseEnv t resp, parseEnv t = .ok req →
      handle_ws_text parseEnv fac t = some resp →
      Json.lookup resp "id" = some req.id) := by
  refine ⟨ws_dispatch_lookup_id fac req, ?_⟩
  intro parseEnv t resp h1 h2
  unfold handle_ws_text at h2
  rw [h1] at h2
  dsimp only at h2
  cases h2
  exact ws_dispatch_lookup_id fac req

/-- Facilitator for the C8 witness. -/
def facC8 : FacilitatorIface where
  kinds := Json.null
  parseVerify := fun _ => .error "unused"
  verify := fun _ => .error (.contractCall "unused")
  parseSettle := fun _ => .error "unused"
  settle := fun _ => .error (.contractCall "unused")

/-- Envelope parser for the C8 witness: every frame parses as an
unknown-method request with a string `id`. -/
def parseEnvC8 : List Nat → Except String WsEnvelopeReq :=
  fun _ => .ok ⟨Json.str "abc", "no.such.method", Json.null⟩

/-- C8 witness: the method-not-found response echoes the request
`id`. -/
theorem ws_response_echoes_id_witness :
    Json.lookup (ws_dispatch facC8 ⟨Json.str "abc", "no.such.method", Json.null⟩)
      "id" = some (Json.str "abc") ∧
    Json.lookup
      (ws_envelope_err (Json.str "abc") (-32601) "Method not found" none)
      "id" = some (Json.str "abc") := by
  refine ⟨(ws_response_echoes_id facC8 ⟨Json.str "abc", "no.such.method", Json.null⟩).1, ?_⟩
  exact (ws_response_echoes_id facC8 ⟨Json.str "abc", "no.such.method", Json.null⟩).2
    parseEnvC8 [] (ws_envelope_err (Json.str "abc") (-32601) "Method not found" none)
    rfl rfl

/-- C9: For every WS text frame whose content does not deserialize as a
request envelope `{id, method, params}` (including frames that are not
JSON at all), the facilitator sends no response frame for it and keeps
the connection open, continuing to process subsequent frames. -/
theorem unparsable_frame_ignored
    (parseEnv : List Nat → Except String WsEnvelopeReq)
    (fac : FacilitatorIface) (t : List Nat) (rest : List WsMessage)
    (msg : String) (h : parseEnv t = .error msg) :
    handle_ws_text parseEnv fac t = none ∧
    ws_serve parseEnv fac (.text t :: rest) = ws_serve parseEnv fac rest := by
  have hn : handle_ws_text parseEnv fac t = none := by
    unfold handle_ws_text
    rw [h]
  refine ⟨hn, ?_⟩
  show (match handle_ws_text parseEnv fac t with
        | some j => [WsOut.text j]
        | none => []) ++ ws_serve parseEnv fac rest = ws_serve parseEnv fac rest
  rw [hn]
  simp

/-- Envelope parser for the C9 witness: rejects every frame. -/
def parseEnvC9 : List Nat → Except String WsEnvelopeReq :=
  fun _ => .error "expected value at line 1 column 1"

/-- C9 witness: a malformed frame produces no response and a later ping
is still answered. -/
theorem unparsable_frame_ignored_witness :
    handle_ws_text parseEnvC9 facC8 [123] = none ∧
    ws_serve parseEnvC9 facC8 [.text [123], .ping [1]] =
      [WsOut.pong [1]] := by
  have h := unparsable_frame_ignored parseEnvC9 facC8 [123] [.ping [1]]
    "expected value at line 1 column 1" rfl
  exact ⟨h.1, h.2⟩

/-! ## Streaming seller (`examples/x402-ws-example/src/bin/seller.rs`)

The seller's `ws_serve` keeps one mutable `slice_index` (starting at 0)
per connection and reacts to parsed `EnvelopeReq` messages.  External
effects are oracles in `SellerEnv`: the serde parsers used when
building the `VerifyRequest`, the WS round trip to the facilitator
(`net`, covering the verify and optional settle exchange of
`facilitator_verify_and_maybe_settle`), UUID generation (a stream of
fresh strings indexed by a counter) and the clock readings. -/

/-- The seller's `AppConfig` together with the registry values it reads
(`USDCDeployment::by_network(network)`): the USDC asset address, the
serialized `usdc.amount(price_usdc)` and the optional EIP-712 domain
metadata.  The registry lives in the external `x402-rs` crate. -/
structure SellerConfig where
  network : String
  unitSeconds : Nat
  priceUsdc : String
  payTo : String
  usdcAddress : String
  usdcAmount : Json
  eip712 : Option (String × String)

/-- The seller's effectful collaborators. -/
structure SellerEnv where
  parsePayload : Json → Except String Json
  parseRequirements : Json → Except String Json
  net : Json → Json → Bool → Except String (Json × Option Json)
  uuid : Nat → String
  nowS : Int
  nowMs : Int

/-- Function `build_requirements` from `seller.rs`: the `stream.require` params
for one slice, embedding the serialized `PaymentRequirements` (field
names per spec §6). -/
def build_requirements (cfg : SellerConfig) (env : SellerEnv)
    (streamId : String) (sliceIndex : Nat) : Json :=
  let requirements := Json.obj [
    ("scheme", .str "exact"),
    ("network", .str cfg.network),
    ("maxAmountRequired", cfg.usdcAmount),
    ("resource", .str "wss://example/stream"),
    ("description", .str ("Slice " ++ toString sliceIndex)),
    ("mimeType", .str "application/octet-stream"),
    ("outputSchema", .null),
    ("payTo", .str cfg.payTo),
    ("maxTimeoutSeconds", .num ((cfg.unitSeconds : Int) + 30)),
    ("asset", .str cfg.usdcAddress),
    ("extra", match cfg.eip712 with
      | some nv => Json.obj [("name", .str nv.1), ("version", .str nv.2)]
      | none => .null)]
  Json.obj [
    ("streamId", .str streamId),
    ("sliceIndex", .num (sliceIndex : Int)),
    ("expiresAt", .num (env.nowS + (cfg.unitSeconds : Int) + 10)),
    ("requirements", requirements)]

/-- Function `facilitator_verify_and_maybe_settle` from `seller.rs`: extract
`paymentPayload`, then `requirements` guarded by the presence of both
`paymentPayload` and `sliceIndex`; parse both; run the facilitator WS
round trip. -/
def facilitator_verify_and_maybe_settle (env : SellerEnv) (params : Json)
    (doSettle : Bool) : Except String (Json × Option Json) :=
  match params.lookup "paymentPayload" with
  | none => .error "missing paymentPayload"
  | some pp =>
    match ((params.lookup "paymentPayload").bind
        (fun _ => params.lookup "sliceIndex")).bind
        (fun _ => params.lookup "requirements") with
    | none => .error "missing requirements"
    | some pr => do
      let ppv ← env.parsePayload pp
      let prv ← env.parseRequirements pr
      env.net ppv prv doSettle

/-- Model of `params.get("verifyOnly").and_then(as_bool).unwrap_or(false)`. -/
def verify_only_of (params : Json) : Bool :=
  ((params.lookup "verifyOnly").bind Json.asBool).getD false

/-- Model of `params.get("streamId").and_then(as_str).unwrap_or("unknown")`. -/
def stream_id_of (params : Json) : String :=
  ((params.lookup "streamId").bind Json.asStr).getD "unknown"

/-- One incoming message on the seller's socket: a text frame carrying
the result of `serde_json::from_str::<EnvelopeReq>` (the envelope
parse is external serde code, so its result is the input), a close
frame, or any other frame kind (ignored). -/
inductive SellerIn where
  | text (parsed : Option WsEnvelopeReq)
  | close
  | other

/-- The per-connection mutable state of the seller's `ws_serve`:
`slice_index`, plus the position in the fresh-UUID stream. -/
structure SellerState where
  sliceIndex : Nat
  uuidCtr : Nat

/-- One iteration of the seller's `ws_serve` match on a non-close
message: returns the updated state and the JSON texts sent. -/
def seller_step (cfg : SellerConfig) (env : SellerEnv) (st : SellerState) :
    SellerIn → SellerState × List Json
  | .text none => (st, [])
  | .text (some req) =>
    if req.method = "stream.init" then
      let streamId := env.uuid st.uuidCtr
      let accept := Json.obj [
        ("pricePerUnit", .str cfg.priceUsdc),
        ("unitSeconds", .num (cfg.unitSeconds : Int)),
        ("payTo", .str cfg.payTo),
        ("asset", .str cfg.usdcAddress),
        ("network", .str cfg.network),
        ("streamId", .str streamId)]
      let response := Json.obj [("id", req.id),
        ("result", Json.obj [("method", .str "stream.accept"), ("params", accept)])]
      let require := build_requirements cfg env streamId st.sliceIndex
      let requireEnv := Json.obj [("id", .str (env.uuid (st.uuidCtr + 1))),
        ("method", .str "stream.require"), ("params", require)]
      (⟨st.sliceIndex, st.uuidCtr + 2⟩, [response, requireEnv])
    else if req.method = "stream.pay" then
      let verifyOnly := verify_only_of req.params
      match facilitator_verify_and_maybe_settle env req.params (!verifyOnly) with
      | .ok vs =>
        let st2 : SellerState := ⟨st.sliceIndex + 1, st.uuidCtr + 1⟩
        let prepaidUntilMs := env.nowMs + (cfg.unitSeconds : Int) * 1000
        let result := Json.obj [
          ("verify", vs.1),
          ("settle", vs.2.getD Json.null),
          ("prepaidUntilMs", .num prepaidUntilMs)]
        let acceptEnv := Json.obj [("id", req.id),
          ("result", Json.obj [("method", .str "stream.accept"), ("params", result)])]
        let nextRequire := build_requirements cfg env (stream_id_of req.params)
          st2.sliceIndex
        let requireEnv := Json.obj [("id", .str (env.uuid st.uuidCtr)),
          ("method", .str "stream.require"), ("params", nextRequire)]
        (st2, [acceptEnv, requireEnv])
      | .error e =>
        (st, [Json.obj [("id", req.id),
          ("error", Json.obj [("code", Json.num 1001), ("message", Json.str e)])]])
    else (st, [])
  | .close => (st, [])
  | .other => (st, [])

/-- The seller's receive loop: `Close` breaks, everything else steps. -/
def seller_serve_loop (cfg : SellerConfig) (env : SellerEnv) :
    SellerState → List SellerIn → List Json
  | _, [] => []
  | _, .close :: _ => []
  | st, m :: rest =>
    let r := seller_step cfg env st m
    r.2 ++ seller_serve_loop cfg env r.1 rest

/-- The seller's `ws_serve`: the loop started with `slice_index = 0`. -/
def ws_serve_seller (cfg : SellerConfig) (env : SellerEnv)
    (msgs : List SellerIn) : List Json :=
  seller_serve_loop cfg env ⟨0, 0⟩ msgs

/-- The `sliceIndex` values carried by the `stream.require` envelopes
among a list of sent messages. -/
def requireIndices (out : List Json) : List Int :=
  out.filterMap fun j =>
    match j.lookup "method" with
    | some (.str m) =>
      if m = "stream.require" then
        match j.lookup "params" with
        | some p =>
          (match p.lookup "sliceIndex" with
           | some (.num n) => some n
           | _ => none)
        | _ => none
      else none
    | _ => none

/-- Unfolding of `seller_step` at a parsed `stream.pay` message. -/
theorem seller_step_pay_eq (cfg : SellerConfig) (env : SellerEnv)
    (st : SellerState) (idv params : Json) :
    seller_step cfg env st (.text (some ⟨idv, "stream.pay", params⟩)) =
      match facilitator_verify_and_maybe_settle env params
          (!(verify_only_of params)) with
      | .ok vs =>
        (⟨st.sliceIndex + 1, st.uuidCtr + 1⟩,
         [Json.obj [("id", idv),
            ("result", Json.obj [("method", .str "stream.accept"),
              ("params", Json.obj [("verify", vs.1),
                ("settle", vs.2.getD Json.null),
                ("prepaidUntilMs",
                  .num (env.nowMs + (cfg.unitSeconds : Int) * 1000))])])],
          Json.obj [("id", .str (env.uuid st.uuidCtr)),
            ("method", .str "stream.require"),
            ("params", build_requirements cfg env (stream_id_of params)
              (st.sliceIndex + 1))]])
      | .error e =>
        (st, [Json.obj [("id", idv),
          ("error", Json.obj [("code", Json.num 1001),
            ("message", Json.str e)])]]) := rfl

/-- C5: On the seller side of the streaming protocol, for every
connection the `sliceIndex` carried in successive `stream.require`
messages starts at 0 (the loop starts with `slice_index = 0`, and a
`stream.init` handled in state `s` emits exactly one `stream.require`
carrying `s`) and increases by exactly one per accepted `stream.pay`
(which moves the counter from `s` to `s + 1` and emits exactly one
`stream.require` carrying `s + 1`); a failed `stream.pay` leaves the
slice counter unchanged and produces no new `stream.require`. -/
theorem seller_slice_progression (cfg : SellerConfig) (env : SellerEnv)
    (st : SellerState) (idv params : Json) :
    (∀ msgs, ws_serve_seller cfg env msgs =
      seller_serve_loop cfg env ⟨0, 0⟩ msgs) ∧
    (requireIndices
        (seller_step cfg env st (.text (some ⟨idv, "stream.init", params⟩))).2
        = [(st.sliceIndex : Int)] ∧
      (seller_step cfg env st (.text (some ⟨idv, "stream.init", params⟩))).1.sliceIndex
        = st.sliceIndex) ∧
    (∀ vs, facilitator_verify_and_maybe_settle env params
        (!(verify_only_of params)) = .ok vs →
      (seller_step cfg env st (.text (some ⟨idv, "stream.pay", params⟩))).1.sliceIndex
          = st.sliceIndex + 1 ∧
        requireIndices
          (seller_step cfg env st (.text (some ⟨idv, "stream.pay", params⟩))).2
          = [((st.sliceIndex + 1 : Nat) : Int)]) ∧
    (∀ e, facilitator_verify_and_maybe_settle env params
        (!(verify_only_of params)) = .error e →
      (seller_step cfg env st (.text (some ⟨idv, "stream.pay", params⟩))).1 = st ∧
        requireIndices
          (seller_step cfg env st (.text (some ⟨idv, "stream.pay", params⟩))).2
          = []) := by
  refine ⟨fun msgs => rfl, ⟨rfl, rfl⟩, ?_, ?_⟩
  · intro vs hok
    rw [seller_step_pay_eq, hok]
    exact ⟨rfl, rfl⟩
  · intro e herr
    rw [seller_step_pay_eq, herr]
    exact ⟨rfl, rfl⟩

/-- Seller configuration for the C5 witness. -/
def cfgC5 : SellerConfig :=
  ⟨"base-sepolia", 60, "0.05", "0xBAc675C310721717Cd4A37F6cbeA1F081b1C2a07",
   "0x036CbD53842c5426634e7929541eC2318f3dCF7e", Json.str "50000", none⟩

/-- Seller oracles whose facilitator round trip succeeds, for the C5
witness. -/
def envC5ok : SellerEnv :=
  ⟨fun j => .ok j, fun j => .ok j, fun _ _ _ => .ok (Json.str "ok", none),
   fun _ => "00000000-0000-4000-8000-000000000000", 1700000000, 1700000000000⟩

/-- Seller oracles whose facilitator round trip fails, for the C5
witness. -/
def envC5err : SellerEnv :=
  ⟨fun j => .ok j, fun j => .ok j, fun _ _ _ => .error "Settlement failed",
   fun _ => "00000000-0000-4000-8000-000000000000", 1700000000, 1700000000000⟩

/-- Params of the `stream.pay` for the C5 witness. -/
def paramsC5 : Json :=
  Json.obj [("streamId", .str "s1"), ("sliceIndex", .num 0),
    ("paymentPayload", .null), ("requirements", .null)]

/-- C5 witness: from the initial state, `stream.init` emits a
`stream.require` carrying 0; an accepted `stream.pay` moves the counter
to 1 and emits a `stream.require` carrying 1; a failed `stream.pay`
leaves the state unchanged and emits no `stream.require`. -/
theorem seller_slice_progression_witness :
    requireIndices
      (seller_step cfgC5 envC5ok ⟨0, 0⟩
        (.text (some ⟨Json.num 1, "stream.init", Json.null⟩))).2 = [0] ∧
    (seller_step cfgC5 envC5ok ⟨0, 0⟩
        (.text (some ⟨Json.num 2, "stream.pay", paramsC5⟩))).1.sliceIndex = 1 ∧
    requireIndices
      (seller_step cfgC5 envC5ok ⟨0, 0⟩
        (.text (some ⟨Json.num 2, "stream.pay", paramsC5⟩))).2 = [1] ∧
    (seller_step cfgC5 envC5err ⟨0, 0⟩
        (.text (some ⟨Json.num 3, "stream.pay", paramsC5⟩))).1 = (⟨0, 0⟩ : SellerState) ∧
    requireIndices
      (seller_step cfgC5 envC5err ⟨0, 0⟩
        (.text (some ⟨Json.num 3, "stream.pay", paramsC5⟩))).2 = [] := by
  have hinit := (seller_slice_progression cfgC5 envC5ok ⟨0, 0⟩ (Json.num 1)
    Json.null).2.1.1
  have hok := (seller_slice_progression cfgC5 envC5ok ⟨0, 0⟩ (Json.num 2)
    paramsC5).2.2.1 (Json.str "ok", none) rfl
  have herr := (seller_slice_progression cfgC5 envC5err ⟨0, 0⟩ (Json.num 3)
    paramsC5).2.2.2 "Settlement failed" rfl
  exact ⟨hinit, hok.1, hok.2, herr.1, herr.2⟩

/-- C10: On the seller side, for every `stream.pay` whose params lack
the `sliceIndex` field, processing fails with a `missing requirements`
error (surfaced as a code-1001 error envelope) even when both
`paymentPayload` and `requirements` are present, because the seller
only reads `requirements` after finding both `paymentPayload` and
`sliceIndex`. -/
theorem seller_missing_slice_index (cfg : SellerConfig) (env : SellerEnv)
    (st : SellerState) (idv params pp rq : Json)
    (h1 : params.lookup "paymentPayload" = some pp)
    (h2 : params.lookup "sliceIndex" = none)
    (_h3 : params.lookup "requirements" = some rq) :
    (∀ ds, facilitator_verify_and_maybe_settle env params ds =
      .error "missing requirements") ∧
    seller_step cfg env st (.text (some ⟨idv, "stream.pay", params⟩)) =
      (st, [Json.obj [("id", idv),
        ("error", Json.obj [("code", Json.num 1001),
          ("message", Json.str "missing requirements")])]]) := by
  have hfac : ∀ ds, facilitator_verify_and_maybe_settle env params ds =
      .error "missing requirements" := by
    intro ds
    unfold facilitator_verify_and_maybe_settle
    rw [h1, h2]
    rfl
  refine ⟨hfac, ?_⟩
  rw [seller_step_pay_eq, hfac (!(verify_only_of params))]

/-- Params of the `stream.pay` for the C10 witness: `paymentPayload` and
`requirements` present, `sliceIndex` absent. -/
def paramsC10 : Json :=
  Json.obj [("streamId", .str "s1"), ("paymentPayload", .null),
    ("requirements", .null)]

/-- C10 witness. -/
theorem seller_missing_slice_index_witness :
    facilitator_verify_and_maybe_settle envC5ok paramsC10 true =
      .error "missing requirements" ∧
    seller_step cfgC5 envC5ok ⟨0, 0⟩
        (.text (some ⟨Json.num 4, "stream.pay", paramsC10⟩)) =
      (⟨0, 0⟩, [Json.obj [("id", Json.num 4),
        ("error", Json.obj [("code", Json.num 1001),
          ("message", Json.str "missing requirements")])]]) := by
  have h := seller_missing_slice_index cfgC5 envC5ok ⟨0, 0⟩ (Json.num 4)
    paramsC10 Json.null Json.null rfl rfl rfl
  exact ⟨h.1 true, h.2⟩
